import Mathlib

/-!
Verification of the workbook document model and mutation protocol of
`tableaudocumentapi/workbook.py` (document-api-python fork).

The XML tree is embedded as a nested inductive: each element carries a
numeric identity `eid` (standing for Python object identity, which the
ElementTree `remove` operation compares by), a tag, an attribute list and
a child list.  Python runtime failures (KeyError, ValueError, TypeError,
IndexError, NotImplementedError, the invalid-file exception) are embedded
as an error type `PyErr`; fallible code returns `Except PyErr _` or a
`(state, Option PyErr)` pair when the claim concerns the state left
behind by a failing mutation.
-/

set_option autoImplicit false

namespace Workbooks

/-- An XML element: identity, tag, attribute list, children (document order). -/
inductive Element : Type where
  | mk : Nat → String → List (String × String) → List Element → Element
  deriving Repr

/-- Object identity of an element. -/
def Element.eid : Element → Nat
  | .mk i _ _ _ => i

/-- XML tag of an element. -/
def Element.tag : Element → String
  | .mk _ t _ _ => t

/-- Attribute list of an element. -/
def Element.attrib : Element → List (String × String)
  | .mk _ _ a _ => a

/-- Children of an element, in document order. -/
def Element.children : Element → List Element
  | .mk _ _ _ cs => cs

/-- Python exceptions raised by the code under consideration.
`keyError` carries the missing key (`d[k]` on an absent key),
`valueError` and `notImplementedError` carry the message,
`nameError` carries the caption that the source interpolates into its
message, `invalidFile` is `TableauInvalidFileException`. -/
inductive PyErr : Type where
  | keyError : String → PyErr
  | valueError : String → PyErr
  | nameError : String → PyErr
  | typeError : PyErr
  | indexError : PyErr
  | notImplementedError : String → PyErr
  | invalidFile : String → PyErr
  deriving Repr, DecidableEq

/-- Embeds `element.attrib[k]` as a total lookup: first binding of `k`. -/
def getAttr (e : Element) (k : String) : Option String :=
  (e.attrib.find? (fun p => p.1 = k)).map (fun p => p.2)

/-- Embeds `element.attrib[k]` as the Python expression: raises `KeyError` when absent. -/
def attrGet (e : Element) (k : String) : Except PyErr String :=
  match getAttr e k with
  | none => .error (.keyError k)
  | some v => .ok v

mutual
/-- Embeds `e.findall('.//t')`: every strict descendant of `e` with tag `t`,
in document (preorder) order. -/
def findallDeep (t : String) : Element → List Element
  | .mk _ _ _ cs => findallDeepL t cs

/-- Preorder scan of a sibling list for `findallDeep`. -/
def findallDeepL (t : String) : List Element → List Element
  | [] => []
  | c :: cs =>
      (if c.tag = t then [c] else []) ++ findallDeep t c ++ findallDeepL t cs
end

/-- Embeds `e.find('.//t')`: first strict descendant with tag `t`, document order. -/
def findDeep (t : String) (e : Element) : Option Element :=
  (findallDeep t e).head?

/-- Embeds `e.find('t')`: first direct child with tag `t`. -/
def findChild (t : String) (e : Element) : Option Element :=
  e.children.find? (fun c => c.tag = t)

/-- Embeds `e.find('.//external/shapes')`: for each descendant tagged `external`
(document order), its children tagged `shapes`; first overall. -/
def findExternalShapes (e : Element) : Option Element :=
  (((findallDeep "external" e).map
      (fun x => x.children.filter (fun c => c.tag = "shapes"))).flatten).head?

/-! ### Datasource and Field (external collaborators)

The `Datasource` and `Field` entities live outside the excerpt; only
`name`, `caption`, `fields`, `add_used_in` and the underlying element
handle are consumed by the workbook code. -/

/-- Modelled from the spec: the missing `Field` entity.  A field's state, as
consumed here, is the set of worksheet names recorded by `add_used_in`;
`fields` is a mapping from field name to that state, one entry per
`column` element of the data source, built with dictionary (overwrite)
semantics. -/
def setField (k : String) : List (String × List String) → List (String × List String)
  | [] => [(k, [])]
  | (k', u) :: t => if k' = k then (k, []) :: t else (k', u) :: setField k t

/-- Modelled from the spec: the field mapping a `Datasource` derives from its
element — one entry per descendant `column` element carrying a `name`
attribute, each with an initially empty used-in set. -/
def fieldsOf (e : Element) : List (String × List String) :=
  ((findallDeep "column" e).filterMap (fun c => getAttr c "name")).foldl
    (fun m k => setField k m) []

/-- Embeds `column_name in datasource.fields`: key membership in the field mapping. -/
def memField (k : String) (m : List (String × List String)) : Bool :=
  m.any (fun p => p.1 = k)

/-- Embeds `datasource.fields[k].add_used_in(ws)`: append `ws` to the used-in set of
the field keyed `k`. -/
def addUsedIn (k ws : String) : List (String × List String) → List (String × List String)
  | [] => []
  | (k', u) :: t => if k' = k then (k, u ++ [ws]) :: t else (k', u) :: addUsedIn k ws t

/-- Modelled from the spec: the missing `Datasource` entity, reduced to the
attributes this core reads — the underlying element handle and the field
mapping. -/
structure Datasource : Type where
  xml : Element
  fields : List (String × List String)
  deriving Repr

/-- Embeds `Datasource(element)`: wrap an element, deriving a fresh field mapping. -/
def Datasource.ofElement (e : Element) : Datasource :=
  ⟨e, fieldsOf e⟩

/-- Modelled from the spec: `datasource.name`, the derived identity, read from
the element's `name` attribute (absent attribute collapses to `""`). -/
def Datasource.name (d : Datasource) : String :=
  (getAttr d.xml "name").getD ""

/-- Modelled from the spec: `datasource.caption`, the user-facing label, read
from the element's `caption` attribute (absent attribute collapses to `""`). -/
def Datasource.caption (d : Datasource) : String :=
  (getAttr d.xml "caption").getD ""

/-! ### Datasource index

`_prepare_datasource_index` builds a `WeakValueDictionary` keyed by
datasource name whose values are the datasource objects of the
`datasources` list.  Since those objects are exactly the members of the
list (aliased, and kept alive by it), a value reference is embedded as the
object's position in the list, so that mutations made through the index
during worksheet derivation are visible in the list as well. -/

/-- Dictionary assignment `m[k] = v`: overwrite the binding of `k`, else
append it. -/
def setKey (k : String) (v : Nat) : List (String × Nat) → List (String × Nat)
  | [] => [(k, v)]
  | (k', v') :: t => if k' = k then (k, v) :: t else (k', v') :: setKey k v t

/-- Dictionary lookup `m[k]` (as an `Option`). -/
def lookupKey (k : String) : List (String × Nat) → Option Nat
  | [] => none
  | (k', v) :: t => if k' = k then some v else lookupKey k t

/-- Embeds `m.keys()`. -/
def keys (m : List (String × Nat)) : List String :=
  m.map (fun p => p.1)

/-- The loop of `_prepare_datasource_index`: `for ds in dss: retval[ds.name] = ds`,
with `n` the position of the head of `l` in the original list. -/
def buildIndex : Nat → List Datasource → List (String × Nat) → List (String × Nat)
  | _, [], m => m
  | n, d :: t, m => buildIndex (n + 1) t (setKey d.name n m)

/-- Embeds `_prepare_datasource_index(datasources)`. -/
def prepareDatasourceIndex (dss : List Datasource) : List (String × Nat) :=
  buildIndex 0 dss []

/-! ### Derivation steps -/

/-- Embeds `_prepare_dashboards`: absent container yields `[]`; otherwise each
child's `name` attribute in document order (`KeyError` when absent). -/
def prepareDashboards (root : Element) : Except PyErr (List String) :=
  match findDeep "dashboards" root with
  | none => .ok []
  | some c => c.children.mapM (fun e => attrGet e "name")

/-- Embeds `_prepare_datasources`: absent top-level container yields `[]`; otherwise
one `Datasource` wrapper per child element, in document order. -/
def prepareDatasources (root : Element) : List Datasource :=
  match findChild "datasources" root with
  | none => []
  | some c => c.children.map Datasource.ofElement

/-- Embeds `_prepare_shapes`: absent `.//external/shapes` container yields `[]`;
otherwise each child's `name` attribute in document order. -/
def prepareShapes (root : Element) : Except PyErr (List String) :=
  match findExternalShapes root with
  | none => .ok []
  | some c => c.children.mapM (fun e => attrGet e "name")

/-- One `datasource-dependencies` declaration of worksheet `wsName`:
read the `datasource` attribute, look it up in the index (`KeyError`
when absent), then for each descendant `column` whose `name` matches a
field of that datasource, record the worksheet in the field's used-in
set.  The source fetches the datasource object once before the column
loop; since only position `i` is updated, refetching it per column is
the same state. -/
def processDep (wsName : String) (idx : List (String × Nat)) (dss : List Datasource)
    (dep : Element) : Except PyErr (List Datasource) := do
  let dsName ← attrGet dep "datasource"
  match lookupKey dsName idx with
  | none => .error (.keyError dsName)
  | some i =>
      (findallDeep "column" dep).foldlM (fun cur col => do
        let colName ← attrGet col "name"
        match cur.get? i with
        | none => .ok cur
        | some ds =>
            if memField colName ds.fields then
              .ok (cur.set i { ds with fields := addUsedIn colName wsName ds.fields })
            else
              .ok cur) dss

/-- One worksheet element: collect its `name` attribute, then resolve each of
its dependency declarations. -/
def processWorksheet (idx : List (String × Nat)) (st : List String × List Datasource)
    (w : Element) : Except PyErr (List String × List Datasource) := do
  let wsName ← attrGet w "name"
  let dss2 ← (findallDeep "datasource-dependencies" w).foldlM (processDep wsName idx) st.2
  .ok (st.1 ++ [wsName], dss2)

/-- Embeds `_prepare_worksheets`: absent container yields no worksheets; otherwise
fold over the container's children, threading the datasource list whose
members the resolver mutates through the index. -/
def prepareWorksheets (root : Element) (dss : List Datasource)
    (idx : List (String × Nat)) : Except PyErr (List String × List Datasource) :=
  match findDeep "worksheets" root with
  | none => .ok ([], dss)
  | some c => c.children.foldlM (processWorksheet idx) ([], dss)

/-! ### The workbook -/

/-- The in-memory document model: source location, tree root, and the derived
collections.  `dsIndex` values are positions into `datasources`. -/
structure Workbook : Type where
  filename : String
  root : Element
  dashboards : List String
  datasources : List Datasource
  dsIndex : List (String × Nat)
  worksheets : List String
  shapes : List String
  deriving Repr

/-- Embeds `Workbook.__init__`: the root-tag check is modelled from the spec
(`xml_open(filename, 'workbook')` lives in the excluded `xfile`
collaborator and returns a falsy value when the root tag is wrong, which
`__init__` turns into `TableauInvalidFileException`); the derivation order
is that of the source: dashboards, datasources, index, worksheets, shapes.
Worksheet derivation mutates the datasource objects in place, so the final
`datasources` is the list it returns; the index positions are unchanged by
those mutations. -/
def Workbook.init (filename : String) (root : Element) : Except PyErr Workbook :=
  if root.tag = "workbook" then do
    let dashboards ← prepareDashboards root
    let dss := prepareDatasources root
    let idx := prepareDatasourceIndex dss
    let ws ← prepareWorksheets root dss idx
    let shapes ← prepareShapes root
    .ok ⟨filename, root, dashboards, ws.2, idx, ws.1, shapes⟩
  else .error (.invalidFile "Workbook file must have a workbook element at root")

/-- Embeds `weakref.getweakrefcount(self._datasource_index)`.  In CPython,
`WeakValueDictionary.__init__` installs a removal callback that closes
over a weak reference to the dictionary itself (`selfref=ref(self)`), and
this code never creates another weak reference to the index object, so
the count is 1 whatever the dictionary contains — also when it is empty. -/
def getweakrefcountIndex (_ : List (String × Nat)) : Nat := 1

mutual
/-- Embeds `self._workbookTree.find(".//datasource")[0].getparent().addnext(newE)`
on the subtree rooted at the argument: locate the first strict descendant
tagged `datasource` in document order; outer `none` means no such
descendant (`find` returned `None`, so the `[0]` indexing raises
`TypeError`); inner `none` means the descendant has no children (`[0]`
raises `IndexError`); otherwise insert `newE` immediately after the
descendant in its parent's child list (the parent of the descendant's
first child is the descendant itself, so `getparent()` undoes the `[0]`
and `addnext` places `newE` as the next sibling of the descendant). -/
def insDs (newE : Element) : Element → Option (Option Element)
  | .mk i t a cs => (insDsL newE cs).map (fun r => r.map (fun cs2 => Element.mk i t a cs2))

/-- Sibling-list scan for `insDs`, in document (preorder) order. -/
def insDsL (newE : Element) : List Element → Option (Option (List Element))
  | [] => none
  | c :: cs =>
      if c.tag = "datasource" then
        some (if c.children.isEmpty then none else some (c :: newE :: cs))
      else
        match insDs newE c with
        | some r => some (r.map (fun c2 => c2 :: cs))
        | none => (insDsL newE cs).map (fun r => r.map (fun cs2 => c :: cs2))
end

/-- The tree mutation of `_add_datasource`, with the Python failures made
explicit. -/
def addDsTree (root newE : Element) : Except PyErr Element :=
  match insDs newE root with
  | none => .error .typeError
  | some none => .error .indexError
  | some (some r) => .ok r

/-- Embeds `list.remove` by object identity on a child list: drop the first child
whose identity matches, `none` when no child matches. -/
def removeFirstChildById (tid : Nat) : List Element → Option (List Element)
  | [] => none
  | c :: cs =>
      if c.eid = tid then some cs
      else (removeFirstChildById tid cs).map (fun r => c :: r)

/-- Embeds `self._workbookTree.getroot().remove(target)`: removes a **direct child**
of the root by identity; ElementTree raises `ValueError` when the element
is not among the root's direct children. -/
def removeRootChild (root : Element) (target : Element) : Except PyErr Element :=
  match root with
  | .mk i t a cs =>
      match removeFirstChildById target.eid cs with
      | none => .error (.valueError "list.remove(x): x not in list")
      | some cs2 => .ok (.mk i t a cs2)

/-- Embeds `add_datasource` and `_add_datasource`.  Returns the state after the call
together with the raised exception, if any; a raise leaves the state as it
was at the moment of the raise.  The duplicate check compares the new
datasource's **caption** against the **keys** of the index (the existing
names); the emptiness guard compares `getweakrefcount` of the index with
0.  On success the tree is mutated first and then `datasources` and the
index are rebuilt together; worksheets, dashboards and shapes are not
re-derived. -/
def Workbook.addDatasource (wb : Workbook) (d : Datasource) : Workbook × Option PyErr :=
  if (lookupKey d.caption wb.dsIndex).isSome then
    (wb, some (.valueError "Datasource names must be unique"))
  else if getweakrefcountIndex wb.dsIndex = 0 then
    (wb, some (.notImplementedError "There are no datasources present in the workbook."))
  else
    match addDsTree wb.root d.xml with
    | .error e => (wb, some e)
    | .ok root2 =>
        let dss2 := prepareDatasources root2
        ({ wb with root := root2, datasources := dss2,
                   dsIndex := prepareDatasourceIndex dss2 }, none)

/-- Embeds `remove_datasource` and `_remove_datasource`.  The argument is `none` for a
null/absent or non-`Datasource` value (`not datasource or not
isinstance(datasource, Datasource)`).  The `nameError` payload is the
caption the source interpolates into its message.  On the success path the
tree is mutated (removal of a direct child of the root, by identity) and
then `datasources` and the index are rebuilt together; a raise leaves the
state as it was at the moment of the raise. -/
def Workbook.removeDatasource (wb : Workbook) (arg : Option Datasource) :
    Workbook × Option PyErr :=
  match arg with
  | none => (wb, some (.valueError "Need to supply a datasource to remove it from workbook"))
  | some d =>
      if (lookupKey d.name wb.dsIndex).isSome then
        match removeRootChild wb.root d.xml with
        | .error e => (wb, some e)
        | .ok root2 =>
            let dss2 := prepareDatasources root2
            ({ wb with root := root2, datasources := dss2,
                       dsIndex := prepareDatasourceIndex dss2 }, none)
      else (wb, some (.nameError d.caption))

/-- What a serialization call produces: a destination and the tree written
there. -/
structure SaveResult : Type where
  dest : String
  content : Element
  deriving Repr

/-- Modelled from the spec: the excluded collaborator
`xfile._save_file(filename, tree, new_filename)` serializes `tree` to the
caller-supplied path when one is given, else to `filename` (§6:
`serialize(tree, destination)` is called with the original source for
`save()` and with a caller-supplied path for `save_as()`). -/
def saveFile (filename : String) (tree : Element) (newFilename : Option String) : SaveResult :=
  ⟨newFilename.getD filename, tree⟩

/-- Embeds `save()`: `xfile._save_file(self._filename, self._workbookTree)`.  Returns
the serialization outcome and the workbook state after the call. -/
def Workbook.save (wb : Workbook) : SaveResult × Workbook :=
  (saveFile wb.filename wb.root none, wb)

/-- Embeds `save_as(new_filename)`:
`xfile._save_file(self._filename, self._workbookTree, new_filename)`.
Returns the serialization outcome and the workbook state after the call. -/
def Workbook.saveAs (wb : Workbook) (newFilename : String) : SaveResult × Workbook :=
  (saveFile wb.filename wb.root (some newFilename), wb)

/-! ### Concrete documents used as witnesses and counterexamples -/

/-- A column element named `Amount`. -/
def colAmount : Element := .mk 3 "column" [("name", "Amount")] []

/-- A datasource element named `A`, captioned `cA`, holding one column. -/
def dsElemA : Element := .mk 2 "datasource" [("name", "A"), ("caption", "cA")] [colAmount]

/-- A `datasources` container holding `dsElemA`. -/
def contA : Element := .mk 1 "datasources" [] [dsElemA]

/-- A workbook document with exactly one data source. -/
def rootA : Element := .mk 0 "workbook" [] [contA]

/-- The workbook state `Workbook.init "book.twb" rootA` evaluates to. -/
def wbA : Workbook :=
  ⟨"book.twb", rootA, [], [Datasource.ofElement dsElemA], [("A", 0)], [], []⟩

/-- A fresh datasource element to insert, named and captioned `B`. -/
def dsElemX : Element :=
  .mk 10 "datasource" [("name", "B"), ("caption", "B")] [.mk 11 "column" [("name", "Qty")] []]

/-- The datasource wrapper around `dsElemX`. -/
def dsX : Datasource := Datasource.ofElement dsElemX

/-- A workbook document whose `datasources` container is empty. -/
def rootE : Element := .mk 0 "workbook" [] [.mk 1 "datasources" [] []]

/-- The workbook state `Workbook.init "book.twb" rootE` evaluates to. -/
def wbE : Workbook := ⟨"book.twb", rootE, [], [], [], [], []⟩

/-- A datasource whose caption `cA` collides with the caption of `dsElemA`
while its name does not collide with any existing name. -/
def dsY : Datasource := Datasource.ofElement (.mk 20 "datasource" [("name", "x"), ("caption", "cA")] [])

/-- A datasource whose caption equals the **name** `A` of `dsElemA`. -/
def dsZ : Datasource := Datasource.ofElement (.mk 50 "datasource" [("name", "q"), ("caption", "A")] [])

/-- A datasource whose name `Z` is not a key of `wbA`'s index. -/
def dsM : Datasource := Datasource.ofElement (.mk 40 "datasource" [("name", "Z"), ("caption", "cZ")] [])

/-- Two datasource elements sharing the name `A`. -/
def dsElemP : Element := .mk 30 "datasource" [("name", "A")] []

/-- Second datasource element named `A` (distinct identity and attributes). -/
def dsElemQ : Element := .mk 31 "datasource" [("name", "A"), ("caption", "q")] []

/-- Wrapper around `dsElemP`. -/
def dsP : Datasource := Datasource.ofElement dsElemP

/-- Wrapper around `dsElemQ`. -/
def dsQ : Datasource := Datasource.ofElement dsElemQ

/-- A stray element that is a direct child of the workbook root, carrying the
name `A`; its wrapper passes `remove_datasource`'s index check and its
element *is* removable from the root's direct children. -/
def strayElem : Element := .mk 9 "stray" [("name", "A")] []

/-- A workbook document holding `contA` and the stray root child. -/
def rootS : Element := .mk 0 "workbook" [] [contA, strayElem]

/-- The workbook state `Workbook.init "book.twb" rootS` evaluates to. -/
def wbS : Workbook :=
  ⟨"book.twb", rootS, [], [Datasource.ofElement dsElemA], [("A", 0)], [], []⟩

/-- Wrapper around the stray root child. -/
def dsStray : Datasource := Datasource.ofElement strayElem

/-- A dependency declaration referencing the nonexistent datasource `Missing`. -/
def depBad : Element :=
  .mk 7 "datasource-dependencies" [("datasource", "Missing")] [.mk 8 "column" [("name", "Amount")] []]

/-- A worksheet whose only dependency declaration is `depBad`. -/
def wsElemBad : Element := .mk 6 "worksheet" [("name", "Rev")] [depBad]

/-- A workbook document whose worksheet references a nonexistent datasource. -/
def rootW : Element :=
  .mk 0 "workbook" [] [contA, .mk 5 "worksheets" [] [wsElemBad]]

/-- A dependency declaration referencing the existing datasource `A`. -/
def depGood : Element :=
  .mk 7 "datasource-dependencies" [("datasource", "A")] [.mk 8 "column" [("name", "Amount")] []]

/-- A worksheet whose only dependency declaration is `depGood`. -/
def wsElemGood : Element := .mk 6 "worksheet" [("name", "Rev")] [depGood]

/-- The worksheets container of `rootW2`. -/
def contW2 : Element := .mk 5 "worksheets" [] [wsElemGood]

/-- A workbook document whose worksheet references the existing datasource. -/
def rootW2 : Element := .mk 0 "workbook" [] [contA, contW2]

/-- The datasource list derived from `rootW2`. -/
def dssW2 : List Datasource := prepareDatasources rootW2

/-- The index derived from `dssW2`. -/
def idxW2 : List (String × Nat) := prepareDatasourceIndex dssW2

/-- The result of worksheet derivation on `rootW2`: the worksheet name is
collected and the `Amount` field of datasource `A` records the usage. -/
def rW2 : List String × List Datasource :=
  (["Rev"], [⟨dsElemA, [("Amount", ["Rev"])]⟩])

/-- A bare workbook document with no containers at all. -/
def root0 : Element := .mk 0 "workbook" [] []

/-- A workbook document with a worksheets container (one named worksheet, no
dependency declarations) but no dashboards, datasources or shapes
container. -/
def rootPart : Element :=
  .mk 0 "workbook" [] [.mk 5 "worksheets" [] [.mk 6 "worksheet" [("name", "W1")] []]]

/-- The workbook state `Workbook.init "book.twb" rootPart` evaluates to. -/
def wbPart : Workbook := ⟨"book.twb", rootPart, [], [], [], ["W1"], []⟩

/-- A dashboard child element named `D1`. -/
def dashChild : Element := .mk 2 "dashboard" [("name", "D1")] []

/-- A worksheet child element named `W1`, with no dependency declarations. -/
def wsChild : Element := .mk 6 "worksheet" [("name", "W1")] []

/-- A shape child element named `S1`. -/
def shapeChild : Element := .mk 9 "shape" [("name", "S1")] []

/-- A workbook document with dashboards, worksheets and shapes containers,
every child carrying a `name` attribute. -/
def rootFull : Element :=
  .mk 0 "workbook" []
    [.mk 1 "dashboards" [] [dashChild],
     .mk 5 "worksheets" [] [wsChild],
     .mk 7 "external" [] [.mk 8 "shapes" [] [shapeChild]]]

/-- The workbook state `Workbook.init "book.twb" rootFull` evaluates to. -/
def wbFull : Workbook :=
  ⟨"book.twb", rootFull, ["D1"], [], [], ["W1"], ["S1"]⟩

/-! ### Basic lemmas -/

@[simp] theorem Element.eid_mk (i : Nat) (t : String) (a : List (String × String))
    (cs : List Element) : (Element.mk i t a cs).eid = i := rfl

@[simp] theorem Element.tag_mk (i : Nat) (t : String) (a : List (String × String))
    (cs : List Element) : (Element.mk i t a cs).tag = t := rfl

@[simp] theorem Element.attrib_mk (i : Nat) (t : String) (a : List (String × String))
    (cs : List Element) : (Element.mk i t a cs).attrib = a := rfl

@[simp] theorem Element.children_mk (i : Nat) (t : String) (a : List (String × String))
    (cs : List Element) : (Element.mk i t a cs).children = cs := rfl

/-! ### Index lemmas -/

theorem mem_keys_setKey (k k' : String) (v : Nat) (m : List (String × Nat)) :
    k' ∈ keys (setKey k v m) ↔ k' = k ∨ k' ∈ keys m := by
  induction m with
  | nil => simp [setKey, keys]
  | cons p t ih =>
      obtain ⟨pk, pv⟩ := p
      by_cases h : pk = k
      · subst h
        simp [setKey, keys]
      · simp only [setKey, if_neg h, keys, List.map_cons, List.mem_cons]
        rw [keys] at ih
        rw [ih]
        tauto

theorem lookupKey_setKey_self (k : String) (v : Nat) (m : List (String × Nat)) :
    lookupKey k (setKey k v m) = some v := by
  induction m with
  | nil => simp [setKey, lookupKey]
  | cons p t ih =>
      obtain ⟨pk, pv⟩ := p
      by_cases h : pk = k
      · subst h
        simp [setKey, lookupKey]
      · simp [setKey, lookupKey, if_neg h, ih]

theorem lookupKey_setKey_ne (k k' : String) (v : Nat) (m : List (String × Nat))
    (h : k' ≠ k) : lookupKey k' (setKey k v m) = lookupKey k' m := by
  induction m with
  | nil => simp only [setKey, lookupKey, if_neg (Ne.symm h)]
  | cons p t ih =>
      obtain ⟨pk, pv⟩ := p
      by_cases hpk : pk = k
      · subst hpk
        simp only [setKey, if_pos rfl, lookupKey, if_neg (Ne.symm h)]
      · simp only [setKey, if_neg hpk, lookupKey]
        by_cases hpk' : pk = k'
        · simp only [if_pos hpk']
        · simp only [if_neg hpk', ih]

theorem lookupKey_isSome_iff (k : String) (m : List (String × Nat)) :
    (lookupKey k m).isSome = true ↔ k ∈ keys m := by
  induction m with
  | nil => simp [lookupKey, keys]
  | cons p t ih =>
      obtain ⟨pk, pv⟩ := p
      by_cases h : pk = k
      · subst h
        simp [lookupKey, keys]
      · simp only [lookupKey, if_neg h, keys, List.map_cons, List.mem_cons]
        rw [keys] at ih
        rw [ih]
        constructor
        · exact fun hh => Or.inr hh
        · rintro (hh | hh)
          · exact absurd hh.symm h
          · exact hh

theorem mem_keys_buildIndex (l : List Datasource) :
    ∀ (n : Nat) (m : List (String × Nat)) (k : String),
      k ∈ keys (buildIndex n l m) ↔ k ∈ keys m ∨ k ∈ l.map Datasource.name := by
  induction l with
  | nil => intro n m k; simp [buildIndex]
  | cons d t ih =>
      intro n m k
      simp only [buildIndex, List.map_cons, List.mem_cons]
      rw [ih, mem_keys_setKey]
      tauto

theorem mem_keys_prepareDatasourceIndex (dss : List Datasource) (k : String) :
    k ∈ keys (prepareDatasourceIndex dss) ↔ k ∈ dss.map Datasource.name := by
  rw [prepareDatasourceIndex, mem_keys_buildIndex]
  simp [keys]

theorem lookupKey_buildIndex_not_mem (l : List Datasource) :
    ∀ (n : Nat) (m : List (String × Nat)) (k : String),
      k ∉ l.map Datasource.name → lookupKey k (buildIndex n l m) = lookupKey k m := by
  induction l with
  | nil => intro n m k _; rfl
  | cons d t ih =>
      intro n m k hk
      simp only [List.map_cons, List.mem_cons, not_or] at hk
      rw [buildIndex, ih _ _ _ hk.2, lookupKey_setKey_ne _ _ _ _ hk.1]

theorem buildIndex_append (pre : List Datasource) :
    ∀ (rest : List Datasource) (n : Nat) (m : List (String × Nat)),
      buildIndex n (pre ++ rest) m = buildIndex (n + pre.length) rest (buildIndex n pre m) := by
  induction pre with
  | nil => intro rest n m; simp [buildIndex]
  | cons d t ih =>
      intro rest n m
      have h1 : (d :: t) ++ rest = d :: (t ++ rest) := rfl
      have h2 : buildIndex n (d :: (t ++ rest)) m
          = buildIndex (n + 1) (t ++ rest) (setKey d.name n m) := rfl
      have h3 : buildIndex n (d :: t) m = buildIndex (n + 1) t (setKey d.name n m) := rfl
      have hl : n + (d :: t).length = n + 1 + t.length := by
        simp only [List.length_cons]
        omega
      rw [h1, h2, ih, h3, hl]

theorem lookupKey_prepareDatasourceIndex_last (pre : List Datasource) (d : Datasource)
    (post : List Datasource) (h : d.name ∉ post.map Datasource.name) :
    lookupKey d.name (prepareDatasourceIndex (pre ++ d :: post)) = some pre.length := by
  rw [prepareDatasourceIndex, buildIndex_append]
  have h2 : buildIndex (0 + pre.length) (d :: post) (buildIndex 0 pre [])
      = buildIndex (0 + pre.length + 1) post
          (setKey d.name (0 + pre.length) (buildIndex 0 pre [])) := rfl
  rw [h2, lookupKey_buildIndex_not_mem _ _ _ _ h, lookupKey_setKey_self]
  simp

/-! ### Monadic plumbing for `Except` -/

theorem exceptBind_ok {α β : Type} (a : α) (g : α → Except PyErr β) :
    (Except.ok a >>= g) = g a := rfl

theorem exceptBind_err {α β : Type} (e : PyErr) (g : α → Except PyErr β) :
    ((Except.error e : Except PyErr α) >>= g) = Except.error e := rfl

theorem foldlM_ok_mem {α σ : Type} (f : σ → α → Except PyErr σ) :
    ∀ (l : List α) (s r : σ), l.foldlM f s = .ok r →
      ∀ a ∈ l, ∃ s1 s2, f s1 a = .ok s2 := by
  intro l
  induction l with
  | nil =>
      intro s r _ a ha
      cases ha
  | cons b t ih =>
      intro s r hfold a ha
      have hc : (b :: t).foldlM f s = (f s b >>= fun s2 => t.foldlM f s2) := rfl
      rw [hc] at hfold
      cases hf : f s b with
      | error e =>
          rw [hf, exceptBind_err] at hfold
          cases hfold
      | ok s2 =>
          rw [hf, exceptBind_ok] at hfold
          cases ha with
          | head => exact ⟨s, s2, hf⟩
          | tail _ ha => exact ih s2 r hfold a ha

theorem mapM_ok_mem {α β : Type} (f : α → Except PyErr β) :
    ∀ (l : List α) (r : List β), l.mapM f = .ok r →
      ∀ a ∈ l, ∃ b, f a = .ok b := by
  intro l
  induction l with
  | nil =>
      intro r _ a ha
      cases ha
  | cons c t ih =>
      intro r hmap a ha
      rw [List.mapM_cons] at hmap
      cases hf : f c with
      | error e =>
          rw [hf, exceptBind_err] at hmap
          cases hmap
      | ok b =>
          rw [hf, exceptBind_ok] at hmap
          cases ht : t.mapM f with
          | error e =>
              rw [ht, exceptBind_err] at hmap
              cases hmap
          | ok bs =>
              cases ha with
              | head => exact ⟨b, hf⟩
              | tail _ ha => exact ih bs ht a ha

/-! ### Inversion lemmas on the derivation -/

theorem processDep_ok_resolvable (ws : String) (idx : List (String × Nat))
    (dss : List Datasource) (dep : Element) (r : List Datasource)
    (h : processDep ws idx dss dep = .ok r) :
    ∃ v, getAttr dep "datasource" = some v ∧ (lookupKey v idx).isSome = true := by
  unfold processDep attrGet at h
  cases hn : getAttr dep "datasource" with
  | none =>
      rw [hn, exceptBind_err] at h
      cases h
  | some v =>
      refine ⟨v, rfl, ?_⟩
      rw [hn, exceptBind_ok] at h
      cases hl : lookupKey v idx with
      | none =>
          rw [hl] at h
          cases h
      | some i => simp [hl]

theorem processWorksheet_ok_name (idx : List (String × Nat))
    (st : List String × List Datasource) (w : Element)
    (r : List String × List Datasource) (h : processWorksheet idx st w = .ok r) :
    (getAttr w "name").isSome = true := by
  unfold processWorksheet attrGet at h
  cases hn : getAttr w "name" with
  | none =>
      rw [hn, exceptBind_err] at h
      cases h
  | some v => simp [hn]

theorem processWorksheet_ok_deps (idx : List (String × Nat))
    (st : List String × List Datasource) (w : Element)
    (r : List String × List Datasource) (h : processWorksheet idx st w = .ok r) :
    ∀ dep ∈ findallDeep "datasource-dependencies" w,
      ∃ v, getAttr dep "datasource" = some v ∧ (lookupKey v idx).isSome = true := by
  intro dep hdep
  unfold processWorksheet attrGet at h
  cases hn : getAttr w "name" with
  | none =>
      rw [hn, exceptBind_err] at h
      cases h
  | some nm =>
      rw [hn, exceptBind_ok] at h
      cases hfold : (findallDeep "datasource-dependencies" w).foldlM
          (processDep nm idx) st.2 with
      | error e =>
          rw [hfold, exceptBind_err] at h
          cases h
      | ok dss2 =>
          obtain ⟨s1, s2, hstep⟩ := foldlM_ok_mem _ _ _ _ hfold dep hdep
          exact processDep_ok_resolvable _ _ _ _ _ hstep

theorem prepareWorksheets_ok_resolvable (root : Element) (dss : List Datasource)
    (idx : List (String × Nat)) (r : List String × List Datasource)
    (c : Element) (h : prepareWorksheets root dss idx = .ok r)
    (hc : findDeep "worksheets" root = some c) :
    ∀ w ∈ c.children, (getAttr w "name").isSome = true ∧
      ∀ dep ∈ findallDeep "datasource-dependencies" w,
        ∃ v, getAttr dep "datasource" = some v ∧ (lookupKey v idx).isSome = true := by
  intro w hw
  unfold prepareWorksheets at h
  rw [hc] at h
  obtain ⟨s1, s2, hstep⟩ := foldlM_ok_mem _ _ _ _ h w hw
  exact ⟨processWorksheet_ok_name _ _ _ _ hstep, processWorksheet_ok_deps _ _ _ _ hstep⟩

theorem init_ok_inv (f : String) (root : Element) (wb : Workbook)
    (h : Workbook.init f root = .ok wb) :
    prepareDashboards root = .ok wb.dashboards ∧
    prepareWorksheets root (prepareDatasources root)
        (prepareDatasourceIndex (prepareDatasources root))
      = .ok (wb.worksheets, wb.datasources) ∧
    prepareShapes root = .ok wb.shapes ∧
    wb.dsIndex = prepareDatasourceIndex (prepareDatasources root) := by
  unfold Workbook.init at h
  by_cases ht : root.tag = "workbook"
  · rw [if_pos ht] at h
    cases hd : prepareDashboards root with
    | error e =>
        rw [hd, exceptBind_err] at h
        cases h
    | ok dbs =>
        rw [hd, exceptBind_ok] at h
        simp only [exceptBind_ok] at h
        cases hw : prepareWorksheets root (prepareDatasources root)
            (prepareDatasourceIndex (prepareDatasources root)) with
        | error e =>
            rw [hw, exceptBind_err] at h
            cases h
        | ok ws =>
            rw [hw, exceptBind_ok] at h
            cases hs : prepareShapes root with
            | error e =>
                rw [hs, exceptBind_err] at h
                cases h
            | ok shp =>
                rw [hs, exceptBind_ok] at h
                cases h
                exact ⟨rfl, rfl, rfl, rfl⟩
  · rw [if_neg ht] at h
    cases h

theorem addDsTree_err_shape (root newE : Element) (e : PyErr)
    (h : addDsTree root newE = .error e) : e = .typeError ∨ e = .indexError := by
  unfold addDsTree at h
  cases hi : insDs newE root with
  | none =>
      rw [hi] at h
      cases h
      left
      rfl
  | some o =>
      cases o with
      | none =>
          rw [hi] at h
          cases h
          right
          rfl
      | some r2 =>
          rw [hi] at h
          cases h

theorem addDatasource_ok_shape (wb : Workbook) (d : Datasource)
    (h : (wb.addDatasource d).2 = none) :
    (wb.addDatasource d).1.dsIndex
      = prepareDatasourceIndex ((wb.addDatasource d).1.datasources) := by
  cases hl : lookupKey d.caption wb.dsIndex with
  | some v => simp [Workbook.addDatasource, hl] at h
  | none =>
      cases h2 : addDsTree wb.root d.xml with
      | error e => simp [Workbook.addDatasource, hl, getweakrefcountIndex, h2] at h
      | ok r2 => simp [Workbook.addDatasource, hl, getweakrefcountIndex, h2]

theorem removeDatasource_ok_shape (wb : Workbook) (d : Datasource)
    (h : (wb.removeDatasource (some d)).2 = none) :
    (wb.removeDatasource (some d)).1.dsIndex
      = prepareDatasourceIndex ((wb.removeDatasource (some d)).1.datasources) := by
  cases hl : lookupKey d.name wb.dsIndex with
  | none => simp [Workbook.removeDatasource, hl] at h
  | some v =>
      cases h2 : removeRootChild wb.root d.xml with
      | error e => simp [Workbook.removeDatasource, hl, h2] at h
      | ok r2 => simp [Workbook.removeDatasource, hl, h2]

theorem foldlM_ok_invariant {α σ : Type} (P : σ → Prop) (f : σ → α → Except PyErr σ)
    (hstep : ∀ s a r, P s → f s a = .ok r → P r) :
    ∀ (l : List α) (s r : σ), P s → l.foldlM f s = .ok r → P r := by
  intro l
  induction l with
  | nil =>
      intro s r hP h
      have h' : (Except.ok s : Except PyErr σ) = .ok r := h
      cases h'
      exact hP
  | cons b t ih =>
      intro s r hP h
      have hc : (b :: t).foldlM f s = (f s b >>= fun s2 => t.foldlM f s2) := rfl
      rw [hc] at h
      cases hf : f s b with
      | error e =>
          rw [hf, exceptBind_err] at h
          cases h
      | ok s2 =>
          rw [hf, exceptBind_ok] at h
          exact ih s2 r (hstep s b s2 hP hf) h

theorem processDep_nil_preserved (ws : String) (idx : List (String × Nat))
    (dep : Element) (r : List Datasource)
    (h : processDep ws idx [] dep = .ok r) : r = [] := by
  unfold processDep attrGet at h
  cases hn : getAttr dep "datasource" with
  | none =>
      rw [hn, exceptBind_err] at h
      cases h
  | some v =>
      rw [hn, exceptBind_ok] at h
      cases hl : lookupKey v idx with
      | none =>
          rw [hl] at h
          cases h
      | some i =>
          rw [hl] at h
          refine foldlM_ok_invariant (fun s => s = []) _ ?_ _ [] r rfl h
          intro s a r2 hs hf
          subst hs
          cases hn2 : getAttr a "name" with
          | none => simp [hn2, exceptBind_err] at hf
          | some v2 =>
              simp only [hn2, exceptBind_ok] at hf
              exact (Except.ok.inj hf).symm

theorem processWorksheet_nil_preserved (idx : List (String × Nat))
    (st : List String × List Datasource) (w : Element)
    (r : List String × List Datasource)
    (h : processWorksheet idx st w = .ok r) (hst : st.2 = []) : r.2 = [] := by
  unfold processWorksheet attrGet at h
  cases hn : getAttr w "name" with
  | none =>
      rw [hn, exceptBind_err] at h
      cases h
  | some nm =>
      rw [hn, exceptBind_ok] at h
      cases hfold : (findallDeep "datasource-dependencies" w).foldlM
          (processDep nm idx) st.2 with
      | error e =>
          rw [hfold, exceptBind_err] at h
          cases h
      | ok dss2 =>
          rw [hfold, exceptBind_ok] at h
          cases h
          rw [hst] at hfold
          exact foldlM_ok_invariant (fun s => s = [])
            (processDep nm idx)
            (fun s a r2 hs hf => by
              subst hs
              exact processDep_nil_preserved nm idx a r2 hf)
            _ [] dss2 rfl hfold

theorem prepareWorksheets_nil_datasources (root : Element)
    (idx : List (String × Nat)) (r : List String × List Datasource)
    (h : prepareWorksheets root [] idx = .ok r) : r.2 = [] := by
  unfold prepareWorksheets at h
  cases hc : findDeep "worksheets" root with
  | none =>
      rw [hc] at h
      cases h
      rfl
  | some c =>
      rw [hc] at h
      exact foldlM_ok_invariant (fun st => st.2 = [])
        (processWorksheet idx)
        (fun s a r2 hs hf => processWorksheet_nil_preserved idx s a r2 hf hs)
        _ ([], []) r rfl h

/-! ### The claims -/

/-- C1: after every successful `add_datasource` or `remove_datasource`, the
key set of the workbook's datasource index equals exactly the set of names
of the data sources in the current `datasources` sequence, because both
are rebuilt together from the tree after the mutation. -/
theorem index_fresh_after_mutation (wb : Workbook) (d : Datasource) (k : String) :
    ((wb.addDatasource d).2 = none →
      (k ∈ keys (wb.addDatasource d).1.dsIndex ↔
        k ∈ ((wb.addDatasource d).1.datasources.map Datasource.name))) ∧
    ((wb.removeDatasource (some d)).2 = none →
      (k ∈ keys (wb.removeDatasource (some d)).1.dsIndex ↔
        k ∈ ((wb.removeDatasource (some d)).1.datasources.map Datasource.name))) := by
  constructor
  · intro h
    rw [addDatasource_ok_shape wb d h, mem_keys_prepareDatasourceIndex]
  · intro h
    rw [removeDatasource_ok_shape wb d h, mem_keys_prepareDatasourceIndex]

/-- Witness for C1: a successful add on `wbA`, and a successful remove on
`wbS` (whose target element is a direct child of the root, the only way
the tree removal can succeed). -/
theorem index_fresh_after_mutation_witness :
    ((wbA.addDatasource dsX).2 = none ∧
      ("B" ∈ keys (wbA.addDatasource dsX).1.dsIndex ↔
        "B" ∈ ((wbA.addDatasource dsX).1.datasources.map Datasource.name))) ∧
    ((wbS.removeDatasource (some dsStray)).2 = none ∧
      ("A" ∈ keys (wbS.removeDatasource (some dsStray)).1.dsIndex ↔
        "A" ∈ ((wbS.removeDatasource (some dsStray)).1.datasources.map Datasource.name))) :=
  ⟨⟨rfl, (index_fresh_after_mutation wbA dsX "B").1 rfl⟩,
   ⟨rfl, (index_fresh_after_mutation wbS dsStray "A").2 rfl⟩⟩

/-- C2, counterexample: the resolver does **not** skip a dependency
declaration whose referenced data-source name is absent from the index —
opening `rootW`, whose single declaration references `Missing`, fails
with a `KeyError` instead of completing. -/
theorem worksheet_derivation_missing_datasource_cex :
    Workbook.init "book.twb" rootW = .error (.keyError "Missing") := rfl

/-- C2 (amended): a dependency declaration whose referenced data-source name
is not a key of the index makes derivation fail with a `KeyError` (the
unguarded index subscript) instead of being skipped; consequently
worksheet derivation completes successfully only when every declaration
of every worksheet references a name that is a key of the index. -/
theorem worksheet_derivation_requires_known_datasources (root : Element)
    (dss : List Datasource) (idx : List (String × Nat))
    (r : List String × List Datasource) (c : Element)
    (h : prepareWorksheets root dss idx = .ok r)
    (hc : findDeep "worksheets" root = some c) :
    ∀ w ∈ c.children, ∀ dep ∈ findallDeep "datasource-dependencies" w,
      ∃ v, getAttr dep "datasource" = some v ∧ (lookupKey v idx).isSome = true := by
  intro w hw dep hdep
  exact ((prepareWorksheets_ok_resolvable root dss idx r c h hc) w hw).2 dep hdep

/-- Witness for C2's amended theorem, on the resolvable document `rootW2`. -/
theorem worksheet_derivation_requires_known_datasources_witness :
    ∃ v, getAttr depGood "datasource" = some v ∧ (lookupKey v idxW2).isSome = true :=
  worksheet_derivation_requires_known_datasources rootW2 dssW2 idxW2 rW2 contW2
    rfl rfl wsElemGood (by simp [contW2]) depGood (by simp [wsElemGood, findallDeep, findallDeepL, depGood])

/-- C3 (code bug): on a workbook whose document contains zero data-source
elements, `add_datasource` does not raise the documented
`NotImplementedError` before mutating: the guard compares
`weakref.getweakrefcount` of the index — which is always 1 for a
`WeakValueDictionary` — with 0, so it never fires, and the call instead
crashes with a `TypeError` when `find(".//datasource")` returns `None`
and is subscripted. -/
theorem add_on_empty_workbook_typeerror :
    Workbook.init "book.twb" rootE = .ok wbE ∧
    (wbE.addDatasource dsX).2 = some PyErr.typeError ∧
    (wbE.addDatasource dsX).2 ≠ some (PyErr.notImplementedError
      "There are no datasources present in the workbook.") :=
  ⟨rfl, rfl, by decide⟩

/-- C4, counterexample: `wbA`'s only data source has caption `cA`, the new
data source `dsY` has that same caption, yet `add_datasource` raises
nothing — the duplicate check compares the new caption against existing
**names**, not captions. -/
theorem add_duplicate_caption_cex :
    wbA.datasources.map Datasource.caption = ["cA"] ∧
    Datasource.caption dsY = "cA" ∧
    (wbA.addDatasource dsY).2 = none :=
  ⟨rfl, rfl, rfl⟩

/-- C4 (amended): `add_datasource` raises `DuplicateNameError` if and only if
the new data source's **caption** equals the **name** of some existing
data source (a key of the index), and in that failure case the workbook —
its `datasources` sequence, index and tree — is left unchanged. -/
theorem add_duplicate_check_uses_names (wb : Workbook) (d : Datasource) :
    ((wb.addDatasource d).2 = some (.valueError "Datasource names must be unique")
      ↔ d.caption ∈ keys wb.dsIndex) ∧
    (d.caption ∈ keys wb.dsIndex →
      wb.addDatasource d = (wb, some (.valueError "Datasource names must be unique"))) := by
  have hiff := lookupKey_isSome_iff d.caption wb.dsIndex
  cases hl : lookupKey d.caption wb.dsIndex with
  | some v =>
      have hmem : d.caption ∈ keys wb.dsIndex := by
        rw [← hiff, hl]
        rfl
      refine ⟨⟨fun _ => hmem, fun _ => ?_⟩, fun _ => ?_⟩
      · simp [Workbook.addDatasource, hl]
      · simp [Workbook.addDatasource, hl]
  | none =>
      have hnot : d.caption ∉ keys wb.dsIndex := by
        rw [← hiff, hl]
        simp
      refine ⟨⟨fun habs => ?_, fun hc => absurd hc hnot⟩, fun hc => absurd hc hnot⟩
      exfalso
      cases h2 : addDsTree wb.root d.xml with
      | error e =>
          rcases addDsTree_err_shape _ _ _ h2 with he | he <;>
            · subst he
              simp [Workbook.addDatasource, hl, getweakrefcountIndex, h2] at habs
      | ok r2 =>
          simp [Workbook.addDatasource, hl, getweakrefcountIndex, h2] at habs

/-- Witness for C4's amended theorem: `dsZ`'s caption `A` collides with the
existing name `A`, so the add fails and leaves `wbA` unchanged. -/
theorem add_duplicate_check_uses_names_witness :
    wbA.addDatasource dsZ = (wbA, some (.valueError "Datasource names must be unique")) :=
  (add_duplicate_check_uses_names wbA dsZ).2 (by decide)

/-- C5 (code bug): the add/remove round trip does not restore the pre-add
state: `remove_datasource` removes the element from the tree **root**'s
direct children, but datasource elements are children of the
`datasources` container, so ElementTree raises `ValueError` and the
workbook is left in its post-add state (two data sources instead of
one). -/
theorem add_remove_roundtrip_fails :
    Workbook.init "book.twb" rootA = .ok wbA ∧
    wbA.datasources.map Datasource.name = ["A"] ∧
    (wbA.addDatasource dsX).2 = none ∧
    ((wbA.addDatasource dsX).1.removeDatasource (some dsX)).2
      = some (PyErr.valueError "list.remove(x): x not in list") ∧
    (((wbA.addDatasource dsX).1.removeDatasource (some dsX)).1.datasources.map
      Datasource.name) = ["A", "B"] :=
  ⟨rfl, rfl, rfl, rfl, rfl⟩

/-- C6, counterexample: with two data sources sharing the name `A`, looking
up the first one's name returns the **later** entry, not the data source
itself — last write wins in `_prepare_datasource_index`. -/
theorem index_lookup_shadowed_cex :
    lookupKey (Datasource.name dsP) (prepareDatasourceIndex [dsP, dsQ]) = some 1 ∧
    [dsP, dsQ][1]? = some dsQ ∧ dsQ ≠ dsP :=
  ⟨rfl, rfl,
    fun hEq => absurd (congrArg (fun x => Element.eid (Datasource.xml x)) hEq) (by decide)⟩

/-- C6 (amended): for every data source `d` of the sequence, looking up
`d.name` in the index returns the **last** data source of the sequence
carrying that name — hence `d` itself whenever no later data source
shares `d`'s name, and in particular whenever names are pairwise
distinct. -/
theorem index_lookup_last_write (pre : List Datasource) (d : Datasource)
    (post : List Datasource) (h : d.name ∉ post.map Datasource.name) :
    lookupKey d.name (prepareDatasourceIndex (pre ++ d :: post)) = some pre.length ∧
    (pre ++ d :: post)[pre.length]? = some d := by
  refine ⟨lookupKey_prepareDatasourceIndex_last pre d post h, ?_⟩
  rw [List.getElem?_append_right (le_refl _)]
  simp

/-- Witness for C6's amended theorem: the shadowing pair `[dsP, dsQ]`, looked
up at the later entry. -/
theorem index_lookup_last_write_witness :
    lookupKey (Datasource.name dsQ) (prepareDatasourceIndex ([dsP] ++ dsQ :: [])) = some 1 ∧
    ([dsP] ++ dsQ :: [])[1]? = some dsQ :=
  index_lookup_last_write [dsP] dsQ [] (by simp)

/-- C7: `remove_datasource` raises `InvalidArgumentError` (`ValueError`) on a
null/absent or non-`Datasource` argument, and `NotFoundError`
(`NameError`, carrying the caption) when the argument's name is not a key
of the index; both checks happen before any tree mutation, so in both
failure cases the workbook — sequence, index, and tree — is returned
unchanged. -/
theorem remove_precondition_checks (wb : Workbook) (d : Datasource) :
    wb.removeDatasource none
      = (wb, some (.valueError "Need to supply a datasource to remove it from workbook")) ∧
    (lookupKey d.name wb.dsIndex = none →
      wb.removeDatasource (some d) = (wb, some (.nameError d.caption))) := by
  refine ⟨rfl, fun h => ?_⟩
  simp [Workbook.removeDatasource, h]

/-- Witness for C7: the null argument, and the unknown data source `dsM`
against `wbA`. -/
theorem remove_precondition_checks_witness :
    wbA.removeDatasource none
      = (wbA, some (.valueError "Need to supply a datasource to remove it from workbook")) ∧
    wbA.removeDatasource (some dsM) = (wbA, some (.nameError "cZ")) :=
  ⟨(remove_precondition_checks wbA dsM).1, (remove_precondition_checks wbA dsM).2 rfl⟩

/-- C8: a missing container at any derivation step yields an empty sequence
for that category rather than an error, independently for each category:
the derivation step of an absent container returns an empty collection
(never raises, so the absence is never the cause of an open failure),
and on every document opened successfully, each absent container's
derived collection is the empty sequence — the other categories are
unconstrained and may be populated. -/
theorem open_missing_containers_empty (f : String) (root : Element) (wb : Workbook)
    (dss : List Datasource) (idx : List (String × Nat)) :
    (findDeep "dashboards" root = none → prepareDashboards root = .ok []) ∧
    (findChild "datasources" root = none → prepareDatasources root = []) ∧
    (findDeep "worksheets" root = none → prepareWorksheets root dss idx = .ok ([], dss)) ∧
    (findExternalShapes root = none → prepareShapes root = .ok []) ∧
    (Workbook.init f root = .ok wb →
      (findDeep "dashboards" root = none → wb.dashboards = []) ∧
      (findChild "datasources" root = none → wb.datasources = [] ∧ wb.dsIndex = []) ∧
      (findDeep "worksheets" root = none → wb.worksheets = []) ∧
      (findExternalShapes root = none → wb.shapes = [])) := by
  refine ⟨fun h1 => ?_, fun h2 => ?_, fun h3 => ?_, fun h4 => ?_, fun hinit => ?_⟩
  · unfold prepareDashboards
    rw [h1]
  · unfold prepareDatasources
    rw [h2]
  · unfold prepareWorksheets
    rw [h3]
  · unfold prepareShapes
    rw [h4]
  · obtain ⟨hd, hw, hs, hidx⟩ := init_ok_inv f root wb hinit
    refine ⟨fun h1 => ?_, fun h2 => ?_, fun h3 => ?_, fun h4 => ?_⟩
    · have h1' : prepareDashboards root = .ok [] := by
        unfold prepareDashboards
        rw [h1]
      exact Except.ok.inj (hd.symm.trans h1')
    · have hds : prepareDatasources root = [] := by
        unfold prepareDatasources
        rw [h2]
      constructor
      · have hw2 := hw
        rw [hds] at hw2
        exact prepareWorksheets_nil_datasources root _ _ hw2
      · rw [hidx, hds]
        rfl
    · have h3' : prepareWorksheets root (prepareDatasources root)
          (prepareDatasourceIndex (prepareDatasources root))
            = .ok ([], prepareDatasources root) := by
        unfold prepareWorksheets
        rw [h3]
      have hp := Except.ok.inj (hw.symm.trans h3')
      exact congrArg Prod.fst hp
    · have h4' : prepareShapes root = .ok [] := by
        unfold prepareShapes
        rw [h4]
      exact Except.ok.inj (hs.symm.trans h4')

/-- Witness for C8: `rootPart` has a worksheets container with one worksheet
but no dashboards, datasources or shapes container — its open succeeds
with exactly those three collections empty; `rootA` has a datasources
container but no worksheets container — its open succeeds with an empty
worksheet list.  The bare `root0` open is recorded too. -/
theorem open_missing_containers_empty_witness :
    Workbook.init "book.twb" rootPart = .ok wbPart ∧
    wbPart.dashboards = [] ∧
    (wbPart.datasources = [] ∧ wbPart.dsIndex = []) ∧
    wbPart.shapes = [] ∧
    wbPart.worksheets = ["W1"] ∧
    Workbook.init "book.twb" rootA = .ok wbA ∧
    wbA.worksheets = [] ∧
    wbA.datasources = [Datasource.ofElement dsElemA] ∧
    Workbook.init "book.twb" root0 = .ok ⟨"book.twb", root0, [], [], [], [], []⟩ :=
  have h1 := open_missing_containers_empty "book.twb" rootPart wbPart [] []
  have h2 := open_missing_containers_empty "book.twb" rootA wbA [] []
  ⟨rfl,
   (h1.2.2.2.2 rfl).1 rfl,
   (h1.2.2.2.2 rfl).2.1 rfl,
   (h1.2.2.2.2 rfl).2.2.2 rfl,
   rfl,
   rfl,
   (h2.2.2.2.2 rfl).2.2.1 rfl,
   rfl,
   rfl⟩

/-- C9: a successfully opened document has a `name` attribute on every child
of the dashboards, worksheets and shapes containers — a child lacking it
makes the attribute access fail (`KeyError`), so open raises rather than
skipping the element or substituting a default. -/
theorem open_requires_name_attributes (f : String) (root : Element) (wb : Workbook)
    (h : Workbook.init f root = .ok wb) :
    (∀ c, findDeep "dashboards" root = some c →
      ∀ e ∈ c.children, (getAttr e "name").isSome = true) ∧
    (∀ c, findDeep "worksheets" root = some c →
      ∀ e ∈ c.children, (getAttr e "name").isSome = true) ∧
    (∀ c, findExternalShapes root = some c →
      ∀ e ∈ c.children, (getAttr e "name").isSome = true) := by
  obtain ⟨hd, hw, hs, -⟩ := init_ok_inv f root wb h
  refine ⟨?_, ?_, ?_⟩
  · intro c hc e he
    unfold prepareDashboards at hd
    rw [hc] at hd
    obtain ⟨b, hb⟩ := mapM_ok_mem _ _ _ hd e he
    unfold attrGet at hb
    cases hn : getAttr e "name" with
    | none =>
        rw [hn] at hb
        cases hb
    | some v => simp [hn]
  · intro c hc e he
    exact ((prepareWorksheets_ok_resolvable _ _ _ _ c hw hc) e he).1
  · intro c hc e he
    unfold prepareShapes at hs
    rw [hc] at hs
    obtain ⟨b, hb⟩ := mapM_ok_mem _ _ _ hs e he
    unfold attrGet at hb
    cases hn : getAttr e "name" with
    | none =>
        rw [hn] at hb
        cases hb
    | some v => simp [hn]

/-- Witness for C9: the fully populated document `rootFull`, whose open
succeeds, at one child of each container. -/
theorem open_requires_name_attributes_witness :
    (getAttr dashChild "name").isSome = true ∧
    (getAttr wsChild "name").isSome = true ∧
    (getAttr shapeChild "name").isSome = true :=
  have h := open_requires_name_attributes "book.twb" rootFull wbFull rfl
  ⟨h.1 (.mk 1 "dashboards" [] [dashChild]) rfl dashChild (by simp),
   h.2.1 (.mk 5 "worksheets" [] [wsChild]) rfl wsChild (by simp),
   h.2.2 (.mk 8 "shapes" [] [shapeChild]) rfl shapeChild (by simp)⟩

/-- C10: `save_as(new_filename)` serializes the tree to `new_filename` but
modifies no field of the workbook: the recorded filename is unchanged and
a subsequent `save()` serializes to the original location. -/
theorem save_as_preserves_source (wb : Workbook) (nf : String) :
    (wb.saveAs nf).2 = wb ∧
    (wb.saveAs nf).2.filename = wb.filename ∧
    ((wb.saveAs nf).2.save).1.dest = wb.filename ∧
    (wb.saveAs nf).1.dest = nf :=
  ⟨rfl, rfl, rfl, rfl⟩

end Workbooks
